import Mathlib

/-!
Shallow embedding of the tubely upload handlers (src/src/api/videos.ts,
both iterations, and the thumbnail handler) together with theorems about
the aspect-ratio classifier, the upload pipelines and their effect traces.

External collaborators (auth gateway, multipart parsing, the database, the
object store, and the ffprobe/ffmpeg subprocesses) are modelled as inputs
of the handler: the request environment carries the authentication
outcome, the parsed upload, the subprocess exit codes and the parse of the
probe output.  Every observable side effect (file write, subprocess spawn,
object-store write, database update, file delete) is recorded in an event
trace, in program order.
-/

namespace Tubely

/-- The greatest common divisor exactly as written in the source:
`const gcd = (a, b) => (b === 0 ? a : gcd(b, a % b))`. -/
def gcdJS : Nat → Nat → Nat
  | a, 0 => a
  | a, b + 1 => gcdJS (b + 1) (a % (b + 1))
termination_by _ b => b
decreasing_by exact Nat.mod_lt _ (Nat.succ_pos b)

theorem gcdJS_eq_gcd (a b : Nat) : gcdJS a b = Nat.gcd a b := by
  induction b using Nat.strong_induction_on generalizing a with
  | _ b ih =>
    match b with
    | 0 => rw [gcdJS, Nat.gcd_zero_right]
    | b + 1 =>
      rw [gcdJS, ih _ (Nat.mod_lt _ (Nat.succ_pos b)) (b + 1)]
      rw [Nat.gcd_comm (b + 1) (a % (b + 1)), ← Nat.gcd_rec, Nat.gcd_comm]

/-- The aspect-ratio classification performed by `getVideoAspectRatio` on
the probed `width` and `height`.  The divisions are exact in the source
(the divisor is the gcd of the operands), so the arithmetic is modelled
over `ℚ`. -/
def classify (width height : Nat) : String :=
  let divisor := gcdJS width height
  let simplifiedWidth : ℚ := (width : ℚ) / (divisor : ℚ)
  let simplifiedHeight : ℚ := (height : ℚ) / (divisor : ℚ)
  let aspectRatio := simplifiedWidth / simplifiedHeight
  let tolerance : ℚ := 1 / 100
  if |aspectRatio - 16 / 9| < tolerance then "landscape"
  else if |aspectRatio - 9 / 16| < tolerance then "portrait"
  else "other"

/-- The width/height simplification step of `getVideoAspectRatio`:
`simplifiedWidth = width / divisor`, `simplifiedHeight = height / divisor`
with `divisor = gcd(width, height)` (exact integer divisions). -/
def reduceAspect (width height : Nat) : Nat × Nat :=
  (width / gcdJS width height, height / gcdJS width height)

/-- A video record of the metadata store: id, owning user, and the two
nullable URL fields. -/
structure Video where
  id : String
  userID : String
  thumbnailURL : Option String
  videoURL : Option String
deriving DecidableEq, Repr

/-- The parsed multipart file: declared size in bytes and declared
content type.  (The raw bytes play no role in any claim.) -/
structure UploadedFile where
  size : Nat
  type : String
deriving DecidableEq, Repr

/-- Outcome of `JSON.parse` plus the `data.streams[0].width/height` field
accesses on the probe stdout: either both dimensions, or a thrown parse
error. -/
inductive ProbeParse where
  | fields (width height : Nat)
  | unparsable
deriving DecidableEq, Repr

/-- The error taxonomy of the handlers: the three typed HTTP errors from
`./errors`, the auth failure propagated from `validateJWT`, and a plain
thrown `Error` (such as the ffprobe failure). -/
inductive HandlerError where
  | badRequest (msg : String)
  | notFound (msg : String)
  | userForbidden (msg : String)
  | unauthenticated
  | internal (msg : String)
deriving DecidableEq, Repr

/-- Observable side effects of a handler run, in program order. -/
inductive Event where
  | fsWrite (path : String)
  | spawn (tool : String) (input : String)
  | s3Write (key : String) (sourcePath : String)
  | dbUpdate (v : Video)
  | fsDelete (path : String)
deriving DecidableEq, Repr

/-- The configuration handed to each handler: metadata store, assets
root, and the object-store bucket and region. -/
structure ApiConfig where
  db : String → Option Video
  assetsRoot : String
  s3Bucket : String
  s3Region : String

/-- `node:path`'s `path.join` restricted to plain relative segments
without separators or dot segments, which is the only way the source uses
it (an aspect bucket name, a base64url random name, an opaque id). -/
def pathJoin (a b : String) : String := a ++ "/" ++ b

/-- Splitting a character list at every occurrence of `c`, the behaviour
of JavaScript `String.prototype.split` with a single-character
separator. -/
def splitOnChar (c : Char) : List Char → List (List Char)
  | [] => [[]]
  | x :: xs =>
    match splitOnChar c xs with
    | [] => if x = c then [[], []] else [[x]]
    | r :: rs => if x = c then [] :: r :: rs else (x :: r) :: rs

/-- `t.split('/')[1]`, with JavaScript's `undefined` coerced to the
string "undefined" when there is no second part. -/
def extOf (t : String) : String :=
  ((splitOnChar '/' t.toList).getD 1 "undefined".toList).asString

/-- Index of the last occurrence of `c` in the list, starting the count
at `i`; `none` plays the role of JavaScript's `-1`. -/
def lastIndexOfCharAux (c : Char) : List Char → Nat → Option Nat
  | [], _ => none
  | x :: xs, i =>
    match lastIndexOfCharAux c xs (i + 1) with
    | some j => some j
    | none => if x = c then some i else none

/-- `appendProcessedSuffix` from the source: insert `.processed` before
the final extension, or append it when the path has no dot. -/
def appendProcessedSuffix (filePath : String) : String :=
  match lastIndexOfCharAux '.' filePath.toList 0 with
  | none => filePath ++ ".processed"
  | some i =>
    let base := (filePath.toList.take i).asString
    let extension := (filePath.toList.drop i).asString
    base ++ ".processed" ++ extension

/-- `MAX_UPLOAD_SIZE = 1 << 30` of the video handler. -/
def MAX_UPLOAD_SIZE : Nat := 1 <<< 30

/-- `MAX_UPLOAD_SIZE = 10 << 20` of the thumbnail handler. -/
def MAX_UPLOAD_SIZE_THUMBNAIL : Nat := 10 <<< 20

/-- `getVideoAspectRatio` of the transcoding iteration (second half of
videos.ts): spawn ffprobe, throw when the exit code is non-zero, then try
to parse; a parse failure falls back to "other". -/
def getVideoAspectRatio (exitCode : Int) (out : ProbeParse) (filePath : String) :
    List Event × Except HandlerError String :=
  ([Event.spawn "ffprobe" filePath],
    if exitCode ≠ 0 then
      Except.error (HandlerError.internal
        ("ffprobe exited with status " ++ toString exitCode))
    else
      match out with
      | ProbeParse.fields w h => Except.ok (classify w h)
      | ProbeParse.unparsable => Except.ok "other")

/-- `getVideoAspectRatio` of the first iteration (first half of
videos.ts): identical, except that a parse failure returns `null`. -/
def getVideoAspectRatio_v1 (exitCode : Int) (out : ProbeParse) (filePath : String) :
    List Event × Except HandlerError (Option String) :=
  ([Event.spawn "ffprobe" filePath],
    if exitCode ≠ 0 then
      Except.error (HandlerError.internal
        ("ffprobe exited with status " ++ toString exitCode))
    else
      match out with
      | ProbeParse.fields w h => Except.ok (some (classify w h))
      | ProbeParse.unparsable => Except.ok none)

/-- `processVideoForFastStart`: spawn ffmpeg writing to the
`.processed`-suffixed path; on non-zero exit fall back to the input path,
otherwise return the output path. -/
def processVideoForFastStart (exitCode : Int) (inputFilePath : String) :
    List Event × String :=
  let outputFilePath := appendProcessedSuffix inputFilePath
  ([Event.spawn "ffmpeg" inputFilePath],
    if exitCode ≠ 0 then inputFilePath else outputFilePath)

/-- The per-request inputs of `handlerUploadVideo`: the `videoId` path
parameter, the outcome of bearer-token validation, the parsed `video`
form field, the random base64url name produced by `randomBytes`, and the
behaviour of the two subprocesses on this request's staged file. -/
structure VideoUploadEnv where
  videoId : Option String
  auth : Except Unit String
  file : Option UploadedFile
  randomName : String
  probeExit : Int
  probeOut : ProbeParse
  transcodeExit : Int

/-- The generated file name `randomBytes(32).toString('base64url') + '.' +
file.type.split('/')[1]`. -/
def videoFileNameOf (env : VideoUploadEnv) (file : UploadedFile) : String :=
  env.randomName ++ "." ++ extOf file.type

/-- The staging path `path.join(cfg.assetsRoot, videoFileName)`. -/
def stagedPathOf (cfg : ApiConfig) (env : VideoUploadEnv) (file : UploadedFile) : String :=
  pathJoin cfg.assetsRoot (videoFileNameOf env file)

/-- `handlerUploadVideo` of the transcoding iteration (second half of
videos.ts), as a function from configuration and request environment to
the emitted event trace and the response (`null` body on success). -/
def handlerUploadVideo (cfg : ApiConfig) (env : VideoUploadEnv) :
    List Event × Except HandlerError Unit :=
  match env.videoId with
  | none => ([], Except.error (HandlerError.badRequest "Invalid video ID"))
  | some videoId =>
    match env.auth with
    | Except.error _ => ([], Except.error HandlerError.unauthenticated)
    | Except.ok userID =>
      match cfg.db videoId with
      | none => ([], Except.error (HandlerError.notFound "Video not found"))
      | some video =>
        if userID ≠ video.userID then
          ([], Except.error (HandlerError.userForbidden "Video not owned by this user"))
        else
          match env.file with
          | none => ([], Except.error (HandlerError.badRequest "Video file missing"))
          | some file =>
            if file.size > MAX_UPLOAD_SIZE then
              ([], Except.error (HandlerError.badRequest "Video exceeded file size limit"))
            else if file.type ≠ "video/mp4" then
              ([], Except.error (HandlerError.badRequest "Unsupported mime type"))
            else
              let videoFileName := videoFileNameOf env file
              let videoPath := pathJoin cfg.assetsRoot videoFileName
              let stageEvents := [Event.fsWrite videoPath]
              let (transcodeEvents, processedFilePath) :=
                processVideoForFastStart env.transcodeExit videoPath
              let (probeEvents, ratioResult) :=
                getVideoAspectRatio env.probeExit env.probeOut videoPath
              match ratioResult with
              | Except.error e =>
                (stageEvents ++ transcodeEvents ++ probeEvents, Except.error e)
              | Except.ok aspectRatio =>
                let s3BucketFilePath := pathJoin aspectRatio videoFileName
                let url := "https://" ++ cfg.s3Bucket ++ ".s3." ++ cfg.s3Region ++
                  ".amazonaws.com/" ++ s3BucketFilePath
                let newVideo := { video with videoURL := some url }
                (stageEvents ++ transcodeEvents ++ probeEvents ++
                  [Event.s3Write s3BucketFilePath processedFilePath,
                   Event.dbUpdate newVideo,
                   Event.fsDelete videoPath,
                   Event.fsDelete processedFilePath],
                 Except.ok ())

/-- The per-request inputs of `handlerUploadThumbnail`. -/
structure ThumbnailUploadEnv where
  videoId : Option String
  auth : Except Unit String
  file : Option UploadedFile

/-- The thumbnail path `path.join(cfg.assetsRoot, videoId) + '.' +
file.type.split('/')[1]`. -/
def thumbPathOf (cfg : ApiConfig) (videoId : String) (file : UploadedFile) : String :=
  pathJoin cfg.assetsRoot videoId ++ "." ++ extOf file.type

/-- `handlerUploadThumbnail` of the filesystem-backed iteration (first
half of the thumbnail source): validate the file, write it under the
assets root, then look up and authorize the record, and store a
locally-served URL; responds with the updated record. -/
def handlerUploadThumbnail (cfg : ApiConfig) (env : ThumbnailUploadEnv) :
    List Event × Except HandlerError Video :=
  match env.videoId with
  | none => ([], Except.error (HandlerError.badRequest "Invalid video ID"))
  | some videoId =>
    match env.auth with
    | Except.error _ => ([], Except.error HandlerError.unauthenticated)
    | Except.ok userID =>
      match env.file with
      | none => ([], Except.error (HandlerError.badRequest "Thumbnail file missing"))
      | some file =>
        if file.size > MAX_UPLOAD_SIZE_THUMBNAIL then
          ([], Except.error (HandlerError.badRequest "Thumbnail exceeded file size limit"))
        else if file.type ≠ "image/jpeg" ∧ file.type ≠ "image/png" then
          ([], Except.error (HandlerError.badRequest "Unsupported mime type"))
        else
          let imgPath := thumbPathOf cfg videoId file
          let writeEvents := [Event.fsWrite imgPath]
          match cfg.db videoId with
          | none => (writeEvents, Except.error (HandlerError.notFound "Video not found"))
          | some video =>
            if userID ≠ video.userID then
              (writeEvents,
               Except.error (HandlerError.userForbidden "Video not owned by this user"))
            else
              let url := "http://localhost:8091/" ++ imgPath
              let newVideo := { video with thumbnailURL := some url }
              (writeEvents ++ [Event.dbUpdate newVideo], Except.ok newVideo)

/-- The classifier as the spec words it: `d = gcd(w, h)` (mathematical
gcd), `ratio = (w/d) / (h/d)` with exact integer divisions, thresholds
16/9 and 9/16 with tolerance 0.01. -/
def classifySpec (w h : Nat) : String :=
  let d := Nat.gcd w h
  let ratio : ℚ := ((w / d : Nat) : ℚ) / ((h / d : Nat) : ℚ)
  if |ratio - 16 / 9| < 1 / 100 then "landscape"
  else if |ratio - 9 / 16| < 1 / 100 then "portrait"
  else "other"

/-- For positive dimensions the classifier depends only on the exact
rational ratio `w / h`. -/
theorem classify_eq_ratio (width height : Nat) (hw : 0 < width) (hh : 0 < height) :
    classify width height =
      (if |(width : ℚ) / (height : ℚ) - 16 / 9| < 1 / 100 then "landscape"
       else if |(width : ℚ) / (height : ℚ) - 9 / 16| < 1 / 100 then "portrait"
       else "other") := by
  unfold classify
  rw [gcdJS_eq_gcd]
  have hd : (Nat.gcd width height : ℚ) ≠ 0 := by
    exact_mod_cast (Nat.gcd_pos_of_pos_left height hw).ne'
  have hh0 : (height : ℚ) ≠ 0 := by exact_mod_cast hh.ne'
  have hratio : ((width : ℚ) / (Nat.gcd width height : ℚ)) /
      ((height : ℚ) / (Nat.gcd width height : ℚ)) = (width : ℚ) / (height : ℚ) := by
    field_simp
  simp only [hratio]

/-- C1: for positive `w`, `h` the classifier computes `d = gcd(w, h)` by
the Euclidean recursion with base case `gcd(a, 0) = a`, forms
`ratio = (w/d) / (h/d)` and compares it with 16/9 and 9/16 at tolerance
0.01; in particular 1920x1080 is "landscape", 1080x1920 is "portrait"
and 1000x1000 is "other". -/
theorem classify_matches_spec (w h : Nat) (hw : 0 < w) (_hh : 0 < h) :
    classify w h = classifySpec w h ∧
    classify 1920 1080 = "landscape" ∧
    classify 1080 1920 = "portrait" ∧
    classify 1000 1000 = "other" := by
  refine ⟨?_, ?_, ?_, ?_⟩
  · unfold classify classifySpec
    rw [gcdJS_eq_gcd]
    dsimp only
    have hd : (Nat.gcd w h : ℚ) ≠ 0 := by
      exact_mod_cast (Nat.gcd_pos_of_pos_left h hw).ne'
    rw [Nat.cast_div (Nat.gcd_dvd_left w h) hd, Nat.cast_div (Nat.gcd_dvd_right w h) hd]
  · rw [classify_eq_ratio 1920 1080 (by norm_num) (by norm_num)]
    norm_num [abs_lt]
  · rw [classify_eq_ratio 1080 1920 (by norm_num) (by norm_num)]
    norm_num [abs_lt]
  · rw [classify_eq_ratio 1000 1000 (by norm_num) (by norm_num)]
    norm_num [abs_lt]

/-- Witness for `classify_matches_spec` at 1920x1080. -/
theorem classify_matches_spec_witness :
    classify 1920 1080 = classifySpec 1920 1080 ∧
    classify 1920 1080 = "landscape" ∧
    classify 1080 1920 = "portrait" ∧
    classify 1000 1000 = "other" :=
  classify_matches_spec 1920 1080 (by norm_num) (by norm_num)

/-- C8: reducing a width/height pair by its gcd is idempotent: a pair in
lowest terms is returned unchanged, and reducing twice equals reducing
once. -/
theorem reduceAspect_idempotent (w h : Nat) (hw : 0 < w) (_hh : 0 < h) :
    (gcdJS w h = 1 → reduceAspect w h = (w, h)) ∧
    reduceAspect (reduceAspect w h).1 (reduceAspect w h).2 = reduceAspect w h := by
  have key : ∀ a b : Nat, gcdJS a b = 1 → reduceAspect a b = (a, b) := by
    intro a b h1
    unfold reduceAspect
    rw [h1, Nat.div_one, Nat.div_one]
  refine ⟨key w h, ?_⟩
  have hpos : 0 < Nat.gcd w h := Nat.gcd_pos_of_pos_left h hw
  have hco : Nat.gcd (w / Nat.gcd w h) (h / Nat.gcd w h) = 1 :=
    Nat.coprime_div_gcd_div_gcd hpos
  have hfst : (reduceAspect w h).1 = w / Nat.gcd w h := by
    unfold reduceAspect
    rw [gcdJS_eq_gcd]
  have hsnd : (reduceAspect w h).2 = h / Nat.gcd w h := by
    unfold reduceAspect
    rw [gcdJS_eq_gcd]
  rw [hfst, hsnd]
  have : gcdJS (w / Nat.gcd w h) (h / Nat.gcd w h) = 1 := by
    rw [gcdJS_eq_gcd]
    exact hco
  rw [key _ _ this]
  unfold reduceAspect
  rw [gcdJS_eq_gcd]

/-- Witness for `reduceAspect_idempotent` at 16x9. -/
theorem reduceAspect_idempotent_witness :
    (gcdJS 16 9 = 1 → reduceAspect 16 9 = (16, 9)) ∧
    reduceAspect (reduceAspect 16 9).1 (reduceAspect 16 9).2 = reduceAspect 16 9 :=
  reduceAspect_idempotent 16 9 (by norm_num) (by norm_num)

/-- C9: the classification is invariant under scaling both dimensions by
a positive integer factor. -/
theorem classify_scale_invariant (k w h : Nat) (hk : 0 < k) (hw : 0 < w) (hh : 0 < h) :
    classify (k * w) (k * h) = classify w h := by
  rw [classify_eq_ratio (k * w) (k * h) (Nat.mul_pos hk hw) (Nat.mul_pos hk hh),
    classify_eq_ratio w h hw hh]
  have hk0 : (k : ℚ) ≠ 0 := by exact_mod_cast hk.ne'
  have hratio : ((k * w : Nat) : ℚ) / ((k * h : Nat) : ℚ) = (w : ℚ) / (h : ℚ) := by
    push_cast
    exact mul_div_mul_left _ _ hk0
  rw [hratio]

/-- Witness for `classify_scale_invariant`: doubling 16x9. -/
theorem classify_scale_invariant_witness : classify (2 * 16) (2 * 9) = classify 16 9 :=
  classify_scale_invariant 2 16 9 (by norm_num) (by norm_num) (by norm_num)

/-! Concrete configuration and request environments used by the witness
and counterexample theorems. -/

/-- A stored video record owned by user "u1". -/
def video0 : Video := { id := "v1", userID := "u1", thumbnailURL := none, videoURL := none }

/-- A configuration whose store holds exactly `video0` under "v1". -/
def cfg0 : ApiConfig :=
  { db := fun i => if i = "v1" then some video0 else none,
    assetsRoot := "assets", s3Bucket := "bkt", s3Region := "rg" }

/-- A fully valid video-upload request whose probe exits 0 with
unparsable output and whose transcode succeeds. -/
def envOk : VideoUploadEnv :=
  { videoId := some "v1", auth := Except.ok "u1",
    file := some { size := 100, type := "video/mp4" },
    randomName := "nm", probeExit := 0, probeOut := ProbeParse.unparsable,
    transcodeExit := 0 }

/-- C2 counterexample input: identical to `envOk` except that ffprobe
exits with status 1. -/
def envProbeFail : VideoUploadEnv := { envOk with probeExit := 1 }

/-- C2 counterexample: with every validation passing and ffprobe exiting
non-zero, the handler does not classify the video as "other" and
continue; it propagates the thrown error, emits no object-store write, no
database update and no cleanup, and the request aborts. -/
theorem probe_nonzero_exit_aborts_cex :
    handlerUploadVideo cfg0 envProbeFail =
      ([Event.fsWrite "assets/nm.mp4",
        Event.spawn "ffmpeg" "assets/nm.mp4",
        Event.spawn "ffprobe" "assets/nm.mp4"],
       Except.error (HandlerError.internal "ffprobe exited with status 1")) := by
  rfl

/-- C2 amended: when ffprobe exits 0 but its output is unparsable the
transcoding-iteration handler falls back to the "other" bucket and the
pipeline continues; when ffprobe exits non-zero the error propagates and
the request aborts. -/
theorem probe_fallback_amended
    (cfg : ApiConfig) (env : VideoUploadEnv) (videoId userID : String)
    (video : Video) (file : UploadedFile)
    (hvid : env.videoId = some videoId)
    (hauth : env.auth = Except.ok userID)
    (hdb : cfg.db videoId = some video)
    (howner : userID = video.userID)
    (hfile : env.file = some file)
    (hsize : file.size ≤ MAX_UPLOAD_SIZE)
    (htype : file.type = "video/mp4") :
    (env.probeExit = 0 → env.probeOut = ProbeParse.unparsable →
      (handlerUploadVideo cfg env).2 = Except.ok () ∧
      Event.s3Write (pathJoin "other" (videoFileNameOf env file))
          (processVideoForFastStart env.transcodeExit (stagedPathOf cfg env file)).2
        ∈ (handlerUploadVideo cfg env).1) ∧
    (env.probeExit ≠ 0 →
      (handlerUploadVideo cfg env).2 = Except.error (HandlerError.internal
        ("ffprobe exited with status " ++ toString env.probeExit))) := by
  constructor
  · intro hp0 hout
    simp [handlerUploadVideo, hvid, hauth, hdb, hfile, howner, htype,
      Nat.not_lt.mpr hsize, getVideoAspectRatio, processVideoForFastStart,
      hp0, hout, videoFileNameOf, stagedPathOf]
  · intro hpn
    simp [handlerUploadVideo, hvid, hauth, hdb, hfile, howner, htype,
      Nat.not_lt.mpr hsize, getVideoAspectRatio, processVideoForFastStart, hpn]

/-- Witness for `probe_fallback_amended` at `cfg0`/`envOk`. -/
theorem probe_fallback_amended_witness :
    (handlerUploadVideo cfg0 envOk).2 = Except.ok () ∧
    Event.s3Write (pathJoin "other" (videoFileNameOf envOk { size := 100, type := "video/mp4" }))
        (processVideoForFastStart envOk.transcodeExit
          (stagedPathOf cfg0 envOk { size := 100, type := "video/mp4" })).2
      ∈ (handlerUploadVideo cfg0 envOk).1 :=
  (probe_fallback_amended cfg0 envOk "v1" "u1" video0 { size := 100, type := "video/mp4" }
    rfl rfl rfl rfl rfl (by norm_num [MAX_UPLOAD_SIZE, Nat.shiftLeft_eq]) rfl).1 rfl rfl

/-- Whether an event is a file deletion. -/
def Event.isFsDelete : Event → Bool
  | Event.fsDelete _ => true
  | _ => false

/-- The classification string the handler derives from this request's
probe outcome when ffprobe exits 0: the classified dimensions, or the
"other" fallback on a parse failure. -/
def probeClassification (env : VideoUploadEnv) : String :=
  match env.probeOut with
  | ProbeParse.fields w h => classify w h
  | ProbeParse.unparsable => "other"

/-- A valid request whose transcode tool exits with status 1. -/
def envTranscodeFail : VideoUploadEnv := { envOk with transcodeExit := 1 }

/-- C3: when ffmpeg exits non-zero, the handler succeeds anyway and the
file handed to the object store is the original staged file, never a
processed variant. -/
theorem transcode_failure_uploads_staged
    (cfg : ApiConfig) (env : VideoUploadEnv) (videoId userID : String)
    (video : Video) (file : UploadedFile)
    (hvid : env.videoId = some videoId)
    (hauth : env.auth = Except.ok userID)
    (hdb : cfg.db videoId = some video)
    (howner : userID = video.userID)
    (hfile : env.file = some file)
    (hsize : file.size ≤ MAX_UPLOAD_SIZE)
    (htype : file.type = "video/mp4")
    (hprobe : env.probeExit = 0)
    (htf : env.transcodeExit ≠ 0) :
    (handlerUploadVideo cfg env).2 = Except.ok () ∧
    (∀ k p, Event.s3Write k p ∈ (handlerUploadVideo cfg env).1 →
      p = stagedPathOf cfg env file) ∧
    (∃ k, Event.s3Write k (stagedPathOf cfg env file) ∈ (handlerUploadVideo cfg env).1) := by
  cases hout : env.probeOut <;>
    simp [handlerUploadVideo, hvid, hauth, hdb, hfile, howner, htype,
      Nat.not_lt.mpr hsize, getVideoAspectRatio, processVideoForFastStart,
      hprobe, hout, htf, stagedPathOf, videoFileNameOf]

/-- Witness for `transcode_failure_uploads_staged` at `envTranscodeFail`. -/
theorem transcode_failure_uploads_staged_witness :
    (handlerUploadVideo cfg0 envTranscodeFail).2 = Except.ok () ∧
    (∀ k p, Event.s3Write k p ∈ (handlerUploadVideo cfg0 envTranscodeFail).1 →
      p = stagedPathOf cfg0 envTranscodeFail { size := 100, type := "video/mp4" }) ∧
    (∃ k, Event.s3Write k (stagedPathOf cfg0 envTranscodeFail { size := 100, type := "video/mp4" })
      ∈ (handlerUploadVideo cfg0 envTranscodeFail).1) :=
  transcode_failure_uploads_staged cfg0 envTranscodeFail "v1" "u1" video0
    { size := 100, type := "video/mp4" } rfl rfl rfl rfl rfl
    (by norm_num [MAX_UPLOAD_SIZE, Nat.shiftLeft_eq]) rfl rfl (by decide)

/-- C10: when ffmpeg exits non-zero the returned processed path is the
staged path itself, so the cleanup at the end of the handler deletes the
same path twice, the second delete aiming at a file removed by the
first. -/
theorem transcode_failure_double_delete
    (cfg : ApiConfig) (env : VideoUploadEnv) (videoId userID : String)
    (video : Video) (file : UploadedFile)
    (hvid : env.videoId = some videoId)
    (hauth : env.auth = Except.ok userID)
    (hdb : cfg.db videoId = some video)
    (howner : userID = video.userID)
    (hfile : env.file = some file)
    (hsize : file.size ≤ MAX_UPLOAD_SIZE)
    (htype : file.type = "video/mp4")
    (hprobe : env.probeExit = 0)
    (htf : env.transcodeExit ≠ 0) :
    (processVideoForFastStart env.transcodeExit (stagedPathOf cfg env file)).2 =
      stagedPathOf cfg env file ∧
    (handlerUploadVideo cfg env).1.filter Event.isFsDelete =
      [Event.fsDelete (stagedPathOf cfg env file),
       Event.fsDelete (stagedPathOf cfg env file)] := by
  constructor
  · simp [processVideoForFastStart, htf]
  · cases hout : env.probeOut <;>
      simp [handlerUploadVideo, hvid, hauth, hdb, hfile, howner, htype,
        Nat.not_lt.mpr hsize, getVideoAspectRatio, processVideoForFastStart,
        hprobe, hout, htf, stagedPathOf, videoFileNameOf,
        List.filter, Event.isFsDelete]

/-- Witness for `transcode_failure_double_delete` at `envTranscodeFail`. -/
theorem transcode_failure_double_delete_witness :
    (processVideoForFastStart envTranscodeFail.transcodeExit
        (stagedPathOf cfg0 envTranscodeFail { size := 100, type := "video/mp4" })).2 =
      stagedPathOf cfg0 envTranscodeFail { size := 100, type := "video/mp4" } ∧
    (handlerUploadVideo cfg0 envTranscodeFail).1.filter Event.isFsDelete =
      [Event.fsDelete (stagedPathOf cfg0 envTranscodeFail { size := 100, type := "video/mp4" }),
       Event.fsDelete (stagedPathOf cfg0 envTranscodeFail { size := 100, type := "video/mp4" })] :=
  transcode_failure_double_delete cfg0 envTranscodeFail "v1" "u1" video0
    { size := 100, type := "video/mp4" } rfl rfl rfl rfl rfl
    (by norm_num [MAX_UPLOAD_SIZE, Nat.shiftLeft_eq]) rfl rfl (by decide)

/-- A request identical to `envOk` whose file is one byte over the
1 GiB limit. -/
def envOversize : VideoUploadEnv :=
  { envOk with file := some { size := 1 <<< 30 + 1, type := "video/mp4" } }

/-- C5: an oversized or wrongly-typed upload is rejected with a
bad-request failure and the handler performs no side effect at all: no
file write, no subprocess spawn, no object-store write. -/
theorem upload_validation_before_effects
    (cfg : ApiConfig) (env : VideoUploadEnv) (videoId userID : String)
    (video : Video) (file : UploadedFile)
    (hvid : env.videoId = some videoId)
    (hauth : env.auth = Except.ok userID)
    (hdb : cfg.db videoId = some video)
    (howner : userID = video.userID)
    (hfile : env.file = some file)
    (hbad : file.size > MAX_UPLOAD_SIZE ∨ file.type ≠ "video/mp4") :
    (∃ m, (handlerUploadVideo cfg env).2 = Except.error (HandlerError.badRequest m)) ∧
    (handlerUploadVideo cfg env).1 = [] := by
  by_cases hsize : file.size > MAX_UPLOAD_SIZE
  · constructor
    · exact ⟨"Video exceeded file size limit",
        by simp [handlerUploadVideo, hvid, hauth, hdb, hfile, howner, hsize]⟩
    · simp [handlerUploadVideo, hvid, hauth, hdb, hfile, howner, hsize]
  · have htype : file.type ≠ "video/mp4" := hbad.resolve_left hsize
    constructor
    · exact ⟨"Unsupported mime type",
        by simp [handlerUploadVideo, hvid, hauth, hdb, hfile, howner, hsize, htype]⟩
    · simp [handlerUploadVideo, hvid, hauth, hdb, hfile, howner, hsize, htype]

/-- Witness for `upload_validation_before_effects` at `envOversize`. -/
theorem upload_validation_before_effects_witness :
    (∃ m, (handlerUploadVideo cfg0 envOversize).2 =
      Except.error (HandlerError.badRequest m)) ∧
    (handlerUploadVideo cfg0 envOversize).1 = [] :=
  upload_validation_before_effects cfg0 envOversize "v1" "u1" video0
    { size := 1 <<< 30 + 1, type := "video/mp4" } rfl rfl rfl rfl rfl
    (Or.inl (by norm_num [MAX_UPLOAD_SIZE, Nat.shiftLeft_eq]))

/-- C7: on a successful upload the storage key is the classification
bucket joined with the generated file name, and the record's video URL
is exactly the bucket/region URL of that key. -/
theorem upload_key_and_url
    (cfg : ApiConfig) (env : VideoUploadEnv) (videoId userID : String)
    (video : Video) (file : UploadedFile)
    (hvid : env.videoId = some videoId)
    (hauth : env.auth = Except.ok userID)
    (hdb : cfg.db videoId = some video)
    (howner : userID = video.userID)
    (hfile : env.file = some file)
    (hsize : file.size ≤ MAX_UPLOAD_SIZE)
    (htype : file.type = "video/mp4")
    (hprobe : env.probeExit = 0) :
    (handlerUploadVideo cfg env).2 = Except.ok () ∧
    Event.s3Write (pathJoin (probeClassification env) (videoFileNameOf env file))
        (processVideoForFastStart env.transcodeExit (stagedPathOf cfg env file)).2
      ∈ (handlerUploadVideo cfg env).1 ∧
    (∀ v, Event.dbUpdate v ∈ (handlerUploadVideo cfg env).1 →
      v.videoURL = some ("https://" ++ cfg.s3Bucket ++ ".s3." ++ cfg.s3Region ++
        ".amazonaws.com/" ++ pathJoin (probeClassification env) (videoFileNameOf env file))) ∧
    videoFileNameOf env file = env.randomName ++ "." ++ extOf file.type ∧
    pathJoin (probeClassification env) (videoFileNameOf env file) =
      probeClassification env ++ "/" ++ videoFileNameOf env file := by
  refine ⟨?_, ?_, ?_, rfl, rfl⟩ <;>
    cases hout : env.probeOut <;>
      simp [handlerUploadVideo, hvid, hauth, hdb, hfile, howner, htype,
        Nat.not_lt.mpr hsize, getVideoAspectRatio, processVideoForFastStart,
        hprobe, hout, stagedPathOf, videoFileNameOf, probeClassification, pathJoin]

/-- Witness for `upload_key_and_url` at `envOk`. -/
theorem upload_key_and_url_witness :
    (handlerUploadVideo cfg0 envOk).2 = Except.ok () ∧
    Event.s3Write (pathJoin (probeClassification envOk)
          (videoFileNameOf envOk { size := 100, type := "video/mp4" }))
        (processVideoForFastStart envOk.transcodeExit
          (stagedPathOf cfg0 envOk { size := 100, type := "video/mp4" })).2
      ∈ (handlerUploadVideo cfg0 envOk).1 ∧
    (∀ v, Event.dbUpdate v ∈ (handlerUploadVideo cfg0 envOk).1 →
      v.videoURL = some ("https://" ++ cfg0.s3Bucket ++ ".s3." ++ cfg0.s3Region ++
        ".amazonaws.com/" ++ pathJoin (probeClassification envOk)
          (videoFileNameOf envOk { size := 100, type := "video/mp4" }))) ∧
    videoFileNameOf envOk { size := 100, type := "video/mp4" } =
      envOk.randomName ++ "." ++ extOf "video/mp4" ∧
    pathJoin (probeClassification envOk)
        (videoFileNameOf envOk { size := 100, type := "video/mp4" }) =
      probeClassification envOk ++ "/" ++
        videoFileNameOf envOk { size := 100, type := "video/mp4" } :=
  upload_key_and_url cfg0 envOk "v1" "u1" video0 { size := 100, type := "video/mp4" }
    rfl rfl rfl rfl rfl (by norm_num [MAX_UPLOAD_SIZE, Nat.shiftLeft_eq]) rfl rfl

/-- A thumbnail request with a valid PNG file for a video id absent from
the store. -/
def envThumbNoVid : ThumbnailUploadEnv :=
  { videoId := some "missing", auth := Except.ok "u1",
    file := some { size := 10, type := "image/png" } }

/-- C4 counterexample: a thumbnail request that passes file validation
but fails the record lookup has already written the file under the
assets root when the not-found failure is raised, so the write is left
visible. -/
theorem thumbnail_write_precedes_lookup_cex :
    handlerUploadThumbnail cfg0 envThumbNoVid =
      ([Event.fsWrite "assets/missing.png"],
       Except.error (HandlerError.notFound "Video not found")) := by
  rfl

/-- C4 amended: file validation (missing part, oversize, disallowed
type) precedes the write and leaves no write behind, but the record
lookup and the ownership check run only after the file write, so a
lookup miss or an ownership failure leaves the written file visible. -/
theorem thumbnail_validation_order_amended
    (cfg : ApiConfig) (env : ThumbnailUploadEnv) (videoId userID : String)
    (hvid : env.videoId = some videoId)
    (hauth : env.auth = Except.ok userID) :
    (env.file = none → (handlerUploadThumbnail cfg env).1 = []) ∧
    (∀ file : UploadedFile, env.file = some file →
      file.size > MAX_UPLOAD_SIZE_THUMBNAIL ∨
        (file.type ≠ "image/jpeg" ∧ file.type ≠ "image/png") →
      (handlerUploadThumbnail cfg env).1 = [] ∧
      ∃ m, (handlerUploadThumbnail cfg env).2 = Except.error (HandlerError.badRequest m)) ∧
    (∀ file : UploadedFile, env.file = some file →
      file.size ≤ MAX_UPLOAD_SIZE_THUMBNAIL →
      (file.type = "image/jpeg" ∨ file.type = "image/png") →
      cfg.db videoId = none →
      (handlerUploadThumbnail cfg env).1 = [Event.fsWrite (thumbPathOf cfg videoId file)] ∧
      (handlerUploadThumbnail cfg env).2 =
        Except.error (HandlerError.notFound "Video not found")) ∧
    (∀ (file : UploadedFile) (video : Video), env.file = some file →
      file.size ≤ MAX_UPLOAD_SIZE_THUMBNAIL →
      (file.type = "image/jpeg" ∨ file.type = "image/png") →
      cfg.db videoId = some video → userID ≠ video.userID →
      (handlerUploadThumbnail cfg env).1 = [Event.fsWrite (thumbPathOf cfg videoId file)] ∧
      (handlerUploadThumbnail cfg env).2 =
        Except.error (HandlerError.userForbidden "Video not owned by this user")) := by
  refine ⟨?_, ?_, ?_, ?_⟩
  · intro hnone
    simp [handlerUploadThumbnail, hvid, hauth, hnone]
  · intro file hfile hbad
    by_cases hsize : file.size > MAX_UPLOAD_SIZE_THUMBNAIL
    · constructor
      · simp [handlerUploadThumbnail, hvid, hauth, hfile, hsize]
      · exact ⟨"Thumbnail exceeded file size limit",
          by simp [handlerUploadThumbnail, hvid, hauth, hfile, hsize]⟩
    · have htype := hbad.resolve_left hsize
      constructor
      · simp [handlerUploadThumbnail, hvid, hauth, hfile, hsize, htype]
      · exact ⟨"Unsupported mime type",
          by simp [handlerUploadThumbnail, hvid, hauth, hfile, hsize, htype]⟩
  · intro file hfile hsize htype hdb
    have htype2 : ¬ (file.type ≠ "image/jpeg" ∧ file.type ≠ "image/png") := by
      rcases htype with h | h <;> simp [h]
    constructor <;>
      simp [handlerUploadThumbnail, hvid, hauth, hfile, Nat.not_lt.mpr hsize, htype2, hdb]
  · intro file video hfile hsize htype hdb howner
    have htype2 : ¬ (file.type ≠ "image/jpeg" ∧ file.type ≠ "image/png") := by
      rcases htype with h | h <;> simp [h]
    constructor <;>
      simp [handlerUploadThumbnail, hvid, hauth, hfile, Nat.not_lt.mpr hsize, htype2,
        hdb, howner]

/-- Witness for `thumbnail_validation_order_amended`: the lookup-miss
branch at `envThumbNoVid`. -/
theorem thumbnail_validation_order_amended_witness :
    (handlerUploadThumbnail cfg0 envThumbNoVid).1 =
      [Event.fsWrite (thumbPathOf cfg0 "missing" { size := 10, type := "image/png" })] ∧
    (handlerUploadThumbnail cfg0 envThumbNoVid).2 =
      Except.error (HandlerError.notFound "Video not found") :=
  (thumbnail_validation_order_amended cfg0 envThumbNoVid "missing" "u1" rfl rfl).2.2.1
    { size := 10, type := "image/png" } rfl
    (by norm_num [MAX_UPLOAD_SIZE_THUMBNAIL, Nat.shiftLeft_eq]) (Or.inr rfl) rfl


/-- C6: any record handed to `updateVideo` by either handler is the
looked-up record with only a URL field replaced: the owning user
identifier, the id, and the other URL field are unchanged. -/
theorem handlers_preserve_owner (cfg : ApiConfig) (env : VideoUploadEnv)
    (envT : ThumbnailUploadEnv) (v : Video) :
    (Event.dbUpdate v ∈ (handlerUploadVideo cfg env).1 →
      ∃ videoId v0, env.videoId = some videoId ∧ cfg.db videoId = some v0 ∧
        v.userID = v0.userID ∧ v.id = v0.id ∧ v.thumbnailURL = v0.thumbnailURL) ∧
    (Event.dbUpdate v ∈ (handlerUploadThumbnail cfg envT).1 →
      ∃ videoId v0, envT.videoId = some videoId ∧ cfg.db videoId = some v0 ∧
        v.userID = v0.userID ∧ v.id = v0.id ∧ v.videoURL = v0.videoURL) := by
  constructor
  · intro hmem
    obtain ⟨evid, eauth, efile, ern, epe, epo, ete⟩ := env
    cases evid with
    | none => simp [handlerUploadVideo] at hmem
    | some videoId =>
      cases eauth with
      | error e => simp [handlerUploadVideo] at hmem
      | ok userID =>
        cases hdb : cfg.db videoId with
        | none => simp [handlerUploadVideo, hdb] at hmem
        | some video =>
          by_cases howner : userID ≠ video.userID
          · simp [handlerUploadVideo, hdb, howner] at hmem
          · cases efile with
            | none => simp [handlerUploadVideo, hdb, howner] at hmem
            | some file =>
              by_cases hsize : file.size > MAX_UPLOAD_SIZE
              · simp [handlerUploadVideo, hdb, howner, hsize] at hmem
              · by_cases htype : file.type ≠ "video/mp4"
                · simp [handlerUploadVideo, hdb, howner, hsize, htype] at hmem
                · by_cases hpe : epe ≠ 0
                  · simp [handlerUploadVideo, hdb, howner, hsize, htype, hpe,
                      processVideoForFastStart, getVideoAspectRatio] at hmem
                  · cases epo <;>
                      · simp [handlerUploadVideo, hdb, howner, hsize, htype, hpe,
                          processVideoForFastStart, getVideoAspectRatio] at hmem
                        exact ⟨videoId, video, rfl, hdb, by simp [hmem]⟩
  · intro hmem
    obtain ⟨evid, eauth, efile⟩ := envT
    cases evid with
    | none => simp [handlerUploadThumbnail] at hmem
    | some videoId =>
      cases eauth with
      | error e => simp [handlerUploadThumbnail] at hmem
      | ok userID =>
        cases efile with
        | none => simp [handlerUploadThumbnail] at hmem
        | some file =>
          by_cases hsize : file.size > MAX_UPLOAD_SIZE_THUMBNAIL
          · simp [handlerUploadThumbnail, hsize] at hmem
          · by_cases htype : file.type ≠ "image/jpeg" ∧ file.type ≠ "image/png"
            · simp [handlerUploadThumbnail, hsize, htype] at hmem
            · cases hdb : cfg.db videoId with
              | none => simp [handlerUploadThumbnail, hsize, htype, hdb] at hmem
              | some video =>
                by_cases howner : userID ≠ video.userID
                · simp [handlerUploadThumbnail, hsize, htype, hdb, howner] at hmem
                · simp [handlerUploadThumbnail, hsize, htype, hdb, howner] at hmem
                  exact ⟨videoId, video, rfl, hdb, by simp [hmem]⟩

/-- The record written back by the successful run `envOk`. -/
def videoUpdated : Video :=
  { video0 with videoURL := some "https://bkt.s3.rg.amazonaws.com/other/nm.mp4" }

/-- Witness for `handlers_preserve_owner`: the update emitted by the
video handler on `envOk`. -/
theorem handlers_preserve_owner_witness :
    ∃ videoId v0, envOk.videoId = some videoId ∧ cfg0.db videoId = some v0 ∧
      videoUpdated.userID = v0.userID ∧ videoUpdated.id = v0.id ∧
      videoUpdated.thumbnailURL = v0.thumbnailURL :=
  (handlers_preserve_owner cfg0 envOk envThumbNoVid videoUpdated).1 (by decide)

end Tubely
